import Mathlib

/-!
Shallow embedding of the projection engine of `src/streamlit_app.py`
(`calculate_projections` and the break-even derivation), with the
specification's claims settled as theorems.

Monetary quantities and rates are modelled as rationals.  The per-year
row built by the Python code is a single dictionary; its per-product
revenue entries are modelled as an insertion-ordered association list
with dictionary update semantics (inserting an existing key overwrites
the value in place, a new key is appended at the end), because the code
keys the entries by the product's name and re-reads them by key when it
sums total revenue.  The summary keys written afterwards ("Staffing
Costs", "Other Costs", "Total Revenue", "Total Costs", "Margin", "Total
Subsidy", "Avg Subsidy per Partner") go into the same dictionary; since
every product key ends in " Revenue", the only one of those writes that
can land on a product entry is `year_data["Total Revenue"]` (a product
named "Total"), and that one overwrite is applied to the modelled
entries; the remaining summary keys collide with nothing and are kept
as named fields of the row record.
-/

/-- The scenario choices offered by the sidebar selectbox
(`"Optimistic"`, `"Most Likely"`, `"Pessimistic"`). -/
inductive ScenarioChoice where
  | optimistic
  | mostLikely
  | pessimistic
deriving DecidableEq

/-- `{"Optimistic": 1.2, "Most Likely": 1.0, "Pessimistic": 0.8}[scenario]`
(line 12 of the source). -/
def scenarioMultiplier : ScenarioChoice → ℚ
  | .optimistic => 6 / 5
  | .mostLikely => 1
  | .pessimistic => 4 / 5

/-- One product dict: `{"name": ..., "initial_revenue": ..., "growth_rate": ...}`. -/
structure ProductStream where
  name : String
  initial_revenue : ℚ
  growth_rate : ℚ
deriving DecidableEq

/-- The staffing dict: `num_employees`, `avg_salary`, `cost_growth`. -/
structure StaffingModel where
  num_employees : ℚ
  avg_salary : ℚ
  cost_growth : ℚ
deriving DecidableEq

/-- The other-costs dict: `initial`, `growth_rate`. -/
structure OtherCosts where
  initial : ℚ
  growth_rate : ℚ
deriving DecidableEq

/-- The partnerships dict: `num_partners` (an integer slider value,
used only in a `> 0` test and as a divisor). -/
structure PartnershipModel where
  num_partners : ℕ
deriving DecidableEq

/-- The dict key under which a product's revenue is stored:
`f"{product['name']} Revenue"`. -/
def revKey (p : ProductStream) : String := p.name ++ " Revenue"

/-- `revenue = product['initial_revenue'] * (1 + product['growth_rate'] *
scenario_multiplier / 100) ** year` (line 16 of the source). -/
def productRevenue (sc : ScenarioChoice) (p : ProductStream) (year : ℕ) : ℚ :=
  p.initial_revenue * (1 + p.growth_rate * scenarioMultiplier sc / 100) ^ year

/-- Python dict assignment `d[k] = v` on an insertion-ordered association
list: an existing key keeps its position and gets the new value, a fresh
key is appended. -/
def dictInsert (d : List (String × ℚ)) (k : String) (v : ℚ) : List (String × ℚ) :=
  if d.any (fun kv => kv.1 == k) then
    d.map (fun kv => if kv.1 == k then (k, v) else kv)
  else d ++ [(k, v)]

/-- Python dict read `d[k]` (the engine only reads keys it has just
written, so the default is never reached). -/
def dictGet (d : List (String × ℚ)) (k : String) : ℚ :=
  ((d.find? (fun kv => kv.1 == k)).map Prod.snd).getD 0

/-- The per-product revenue entries of one year's row, in insertion
order: `year_data[f"{product['name']} Revenue"] = revenue` for each
product in sequence (lines 15-17 of the source). -/
def revenueEntries (sc : ScenarioChoice) (products : List ProductStream)
    (year : ℕ) : List (String × ℚ) :=
  products.foldl (fun d p => dictInsert d (revKey p) (productRevenue sc p year)) []

/-- One row of the resulting table.  The source's row is one dict;
`revenues` holds the final state of its per-product entries (the keys
of the form `"<name> Revenue"`, after the `"Total Revenue"` summary
write has overwritten the entry of a product named `"Total"`, the only
key collision the source's write order allows), and the summary columns
are kept as fields, their keys being distinct from every product key
and from each other. -/
structure YearRecord where
  year : ℤ
  revenues : List (String × ℚ)
  staffing_costs : ℚ
  other_costs : ℚ
  total_revenue : ℚ
  total_costs : ℚ
  margin : ℚ
  total_subsidy : ℚ
  avg_subsidy_per_partner : ℚ
deriving DecidableEq

/-- The body of the `for year in range(years)` loop of
`calculate_projections` (lines 8-41 of the source): builds the row for
one year index.  The whole row is one dict in the source; every
product key ends in `" Revenue"`, so of all the later summary writes
only `year_data["Total Revenue"] = total_revenue` (line 29) can hit a
product entry — when a product is named `"Total"` — and it does so
after the totals were read at line 27, so the totals are computed from
the unclobbered product entries.  That single possible overwrite is
applied to `revenues` below; the other summary keys never collide and
become the record's named fields. -/
def yearRow (sc : ScenarioChoice) (products : List ProductStream)
    (staffing : StaffingModel) (partnerships : PartnershipModel)
    (oc : OtherCosts) (year : ℕ) : YearRecord :=
  let revs := revenueEntries sc products year
  let staffing_cost :=
    staffing.num_employees * staffing.avg_salary * (1 + staffing.cost_growth / 100) ^ year
  let other_cost := oc.initial * (1 + oc.growth_rate / 100) ^ year
  let total_revenue := (products.map (fun p => dictGet revs (revKey p))).sum
  let total_costs := staffing_cost + other_cost
  let margin := total_revenue - total_costs
  let subsidy := max 0 (margin * (1 / 2))
  { year := 2025 + year
    revenues :=
      if revs.any (fun kv => kv.1 == "Total Revenue") then
        dictInsert revs "Total Revenue" total_revenue
      else revs
    staffing_costs := staffing_cost
    other_costs := other_cost
    total_revenue := total_revenue
    total_costs := total_costs
    margin := margin
    total_subsidy := subsidy
    avg_subsidy_per_partner :=
      if partnerships.num_partners > 0 then subsidy / partnerships.num_partners else 0 }

/-- `calculate_projections(years, scenario, products, staffing,
partnerships, other_costs)` (lines 6-43 of the source).  The horizon is
a Python integer; `range(years)` is empty when `years ≤ 0`. -/
def calculate_projections (years : ℤ) (sc : ScenarioChoice)
    (products : List ProductStream) (staffing : StaffingModel)
    (partnerships : PartnershipModel) (oc : OtherCosts) : List YearRecord :=
  (List.range years.toNat).map (yearRow sc products staffing partnerships oc)

lemma append_string_right_injective (u : String) :
    Function.Injective (fun s : String => s ++ u) := by
  intro s t h
  have hd := congrArg String.data h
  simp [String.data_append] at hd
  exact String.ext hd

lemma keys_nodup {ps : List ProductStream}
    (h : (ps.map (fun p => p.name)).Nodup) : (ps.map revKey).Nodup := by
  have hrw : ps.map revKey
      = (ps.map (fun p => p.name)).map (fun s => s ++ " Revenue") := by
    simp [List.map_map, revKey, Function.comp]
  rw [hrw]
  exact h.map (append_string_right_injective " Revenue")

lemma foldl_dictInsert_fresh (f : ProductStream → ℚ) (ps : List ProductStream) :
    ∀ acc : List (String × ℚ),
      (∀ p ∈ ps, ∀ kv ∈ acc, kv.1 ≠ revKey p) → (ps.map revKey).Nodup →
      ps.foldl (fun d p => dictInsert d (revKey p) (f p)) acc
        = acc ++ ps.map (fun p => (revKey p, f p)) := by
  induction ps with
  | nil => intro acc _ _; simp
  | cons p ps ih =>
    intro acc hfresh hnodup
    simp only [List.map_cons, List.nodup_cons] at hnodup
    have hacc : (acc.any fun kv => kv.1 == revKey p) = false := by
      rw [List.any_eq_false]
      intro kv hkv
      simpa using hfresh p (List.mem_cons_self p ps) kv hkv
    have step : dictInsert acc (revKey p) (f p) = acc ++ [(revKey p, f p)] := by
      simp [dictInsert, hacc]
    rw [List.foldl_cons, step,
      ih (acc ++ [(revKey p, f p)]) ?_ hnodup.2]
    · simp
    · intro q hq kv hkv
      rcases List.mem_append.1 hkv with h1 | h1
      · exact hfresh q (List.mem_cons_of_mem p hq) kv h1
      · rcases List.mem_singleton.1 h1 with rfl
        intro hcontra
        apply hnodup.1
        rw [show revKey p = revKey q from hcontra]
        exact List.mem_map_of_mem revKey hq

lemma revenueEntries_eq_map (sc : ScenarioChoice) (ps : List ProductStream) (y : ℕ)
    (h : (ps.map (fun p => p.name)).Nodup) :
    revenueEntries sc ps y = ps.map (fun p => (revKey p, productRevenue sc p y)) := by
  simpa [revenueEntries] using
    foldl_dictInsert_fresh (fun p => productRevenue sc p y) ps []
      (by intro p _ kv hkv; simp at hkv) (keys_nodup h)

lemma dictGet_map_eq (g : ProductStream → ℚ) (ps : List ProductStream)
    (h : (ps.map revKey).Nodup) :
    ∀ p ∈ ps, dictGet (ps.map fun q => (revKey q, g q)) (revKey p) = g p := by
  induction ps with
  | nil => simp
  | cons q qs ih =>
    intro p hp
    simp only [List.map_cons, List.nodup_cons] at h
    rcases List.mem_cons.1 hp with rfl | hp2
    · simp [dictGet]
    · have hne : revKey q ≠ revKey p := by
        intro he
        exact h.1 (he ▸ List.mem_map_of_mem revKey hp2)
      rw [List.map_cons, dictGet, List.find?_cons_of_neg _ (by simpa using hne)]
      exact ih h.2 p hp2

/-! ### Projection lemmas for one row -/

lemma yearRow_year (sc : ScenarioChoice) (ps : List ProductStream) (st : StaffingModel)
    (pa : PartnershipModel) (oc : OtherCosts) (y : ℕ) :
    (yearRow sc ps st pa oc y).year = 2025 + y := rfl

lemma yearRow_revenues (sc : ScenarioChoice) (ps : List ProductStream) (st : StaffingModel)
    (pa : PartnershipModel) (oc : OtherCosts) (y : ℕ) :
    (yearRow sc ps st pa oc y).revenues
      = if (revenueEntries sc ps y).any (fun kv => kv.1 == "Total Revenue")
        then dictInsert (revenueEntries sc ps y) "Total Revenue"
          ((ps.map (fun p => dictGet (revenueEntries sc ps y) (revKey p))).sum)
        else revenueEntries sc ps y := rfl

lemma mem_dictInsert_key {d : List (String × ℚ)} {k : String} {v : ℚ}
    {kv : String × ℚ} (h : kv ∈ dictInsert d k v) :
    kv.1 ∈ d.map Prod.fst ∨ kv.1 = k := by
  unfold dictInsert at h
  by_cases hc : (d.any fun kv => kv.1 == k) = true
  · rw [if_pos hc] at h
    rcases List.mem_map.1 h with ⟨kv0, hkv0, rfl⟩
    by_cases he : (kv0.1 == k) = true
    · right
      simp [he]
    · left
      simp only [he]
      simp only [Bool.false_eq_true, if_false]
      exact List.mem_map_of_mem Prod.fst hkv0
  · rw [if_neg hc] at h
    rcases List.mem_append.1 h with h1 | h1
    · exact Or.inl (List.mem_map_of_mem Prod.fst h1)
    · rcases List.mem_singleton.1 h1 with rfl
      exact Or.inr rfl

lemma revenueEntries_keys (sc : ScenarioChoice) (ps : List ProductStream) (y : ℕ) :
    ∀ kv ∈ revenueEntries sc ps y, ∃ p ∈ ps, revKey p = kv.1 := by
  suffices h : ∀ (acc : List (String × ℚ)) kv,
      kv ∈ ps.foldl (fun d p => dictInsert d (revKey p) (productRevenue sc p y)) acc →
      kv.1 ∈ acc.map Prod.fst ∨ ∃ p ∈ ps, revKey p = kv.1 by
    intro kv hkv
    rcases h [] kv hkv with h1 | h1
    · simp at h1
    · exact h1
  induction ps with
  | nil =>
    intro acc kv hkv
    simp only [List.foldl_nil] at hkv
    exact Or.inl (List.mem_map_of_mem Prod.fst hkv)
  | cons p ps ih =>
    intro acc kv hkv
    rw [List.foldl_cons] at hkv
    rcases ih (dictInsert acc (revKey p) (productRevenue sc p y)) kv hkv with h1 | h1
    · rcases List.mem_map.1 h1 with ⟨kv0, hkv0, hfst⟩
      rcases mem_dictInsert_key hkv0 with h2 | h2
      · left
        rw [← hfst]
        exact h2
      · right
        exact ⟨p, List.mem_cons_self p ps, by rw [← hfst, h2]⟩
    · right
      rcases h1 with ⟨q, hq, hqk⟩
      exact ⟨q, List.mem_cons_of_mem p hq, hqk⟩

lemma revenueEntries_no_total (sc : ScenarioChoice) (ps : List ProductStream) (y : ℕ)
    (h : "Total" ∉ ps.map (fun p => p.name)) :
    ((revenueEntries sc ps y).any (fun kv => kv.1 == "Total Revenue")) = false := by
  rw [List.any_eq_false]
  intro kv hkv
  simp only [beq_iff_eq]
  intro heq
  rcases revenueEntries_keys sc ps y kv hkv with ⟨p, hp, hpk⟩
  have hk : revKey p = "Total" ++ " Revenue" := by
    rw [hpk, heq]
    rfl
  have hname : p.name = "Total" :=
    append_string_right_injective " Revenue" hk
  apply h
  rw [← hname]
  exact List.mem_map_of_mem (fun p => p.name) hp

lemma yearRow_revenues_of_no_total (sc : ScenarioChoice) (ps : List ProductStream)
    (st : StaffingModel) (pa : PartnershipModel) (oc : OtherCosts) (y : ℕ)
    (h : "Total" ∉ ps.map (fun p => p.name)) :
    (yearRow sc ps st pa oc y).revenues = revenueEntries sc ps y := by
  rw [yearRow_revenues, revenueEntries_no_total sc ps y h]
  simp

lemma yearRow_staffing_costs (sc : ScenarioChoice) (ps : List ProductStream)
    (st : StaffingModel) (pa : PartnershipModel) (oc : OtherCosts) (y : ℕ) :
    (yearRow sc ps st pa oc y).staffing_costs
      = st.num_employees * st.avg_salary * (1 + st.cost_growth / 100) ^ y := rfl

lemma yearRow_other_costs (sc : ScenarioChoice) (ps : List ProductStream)
    (st : StaffingModel) (pa : PartnershipModel) (oc : OtherCosts) (y : ℕ) :
    (yearRow sc ps st pa oc y).other_costs
      = oc.initial * (1 + oc.growth_rate / 100) ^ y := rfl

lemma yearRow_total_revenue (sc : ScenarioChoice) (ps : List ProductStream)
    (st : StaffingModel) (pa : PartnershipModel) (oc : OtherCosts) (y : ℕ) :
    (yearRow sc ps st pa oc y).total_revenue
      = (ps.map (fun p => dictGet (revenueEntries sc ps y) (revKey p))).sum := rfl

lemma yearRow_total_costs (sc : ScenarioChoice) (ps : List ProductStream)
    (st : StaffingModel) (pa : PartnershipModel) (oc : OtherCosts) (y : ℕ) :
    (yearRow sc ps st pa oc y).total_costs
      = (yearRow sc ps st pa oc y).staffing_costs
          + (yearRow sc ps st pa oc y).other_costs := rfl

lemma yearRow_margin (sc : ScenarioChoice) (ps : List ProductStream) (st : StaffingModel)
    (pa : PartnershipModel) (oc : OtherCosts) (y : ℕ) :
    (yearRow sc ps st pa oc y).margin
      = (yearRow sc ps st pa oc y).total_revenue
          - (yearRow sc ps st pa oc y).total_costs := rfl

lemma yearRow_total_subsidy (sc : ScenarioChoice) (ps : List ProductStream)
    (st : StaffingModel) (pa : PartnershipModel) (oc : OtherCosts) (y : ℕ) :
    (yearRow sc ps st pa oc y).total_subsidy
      = max 0 ((yearRow sc ps st pa oc y).margin * (1 / 2)) := rfl

lemma yearRow_avg_subsidy (sc : ScenarioChoice) (ps : List ProductStream)
    (st : StaffingModel) (pa : PartnershipModel) (oc : OtherCosts) (y : ℕ) :
    (yearRow sc ps st pa oc y).avg_subsidy_per_partner
      = if 0 < pa.num_partners
        then (yearRow sc ps st pa oc y).total_subsidy / (pa.num_partners : ℚ)
        else 0 := rfl

/-! ### Helper lemmas about the produced table -/

lemma calculate_projections_get (years : ℤ) (sc : ScenarioChoice)
    (ps : List ProductStream) (st : StaffingModel) (pa : PartnershipModel)
    (oc : OtherCosts) (i : ℕ)
    (hi : i < (calculate_projections years sc ps st pa oc).length) :
    (calculate_projections years sc ps st pa oc).get ⟨i, hi⟩
      = yearRow sc ps st pa oc i := by
  simp [calculate_projections, List.get_eq_getElem]

lemma mem_calculate_projections {r : YearRecord} {years : ℤ} {sc : ScenarioChoice}
    {ps : List ProductStream} {st : StaffingModel} {pa : PartnershipModel}
    {oc : OtherCosts} :
    r ∈ calculate_projections years sc ps st pa oc ↔
      ∃ y, y < years.toNat ∧ r = yearRow sc ps st pa oc y := by
  simp [calculate_projections, List.mem_map, List.mem_range, eq_comm]

def sampleProducts : List ProductStream := [⟨"A", 100000, 20⟩]

def sampleStaffing : StaffingModel := ⟨1, 50000, 0⟩

def samplePartnerships : PartnershipModel := ⟨2⟩

def sampleOther : OtherCosts := ⟨0, 0⟩

def sampleTable : List YearRecord :=
  calculate_projections 2 ScenarioChoice.mostLikely sampleProducts sampleStaffing
    samplePartnerships sampleOther

def sampleRow : YearRecord :=
  yearRow ScenarioChoice.mostLikely sampleProducts sampleStaffing samplePartnerships
    sampleOther 0

lemma sampleRow_mem : sampleRow ∈ sampleTable :=
  List.mem_map_of_mem _ (by simp)

/-! ### The claims -/

/-- Claim C5: for every valid input the table has exactly `horizon`
records, record `i` carries calendar year `2025 + i` (so years increase
strictly by 1), and a zero horizon yields an empty table. -/
theorem C5_table_shape (years : ℤ) (h : 0 ≤ years) (sc : ScenarioChoice)
    (ps : List ProductStream) (st : StaffingModel) (pa : PartnershipModel)
    (oc : OtherCosts) :
    (((calculate_projections years sc ps st pa oc).length : ℤ) = years) ∧
    (years = 0 → calculate_projections years sc ps st pa oc = []) ∧
    (∀ i (hi : i < (calculate_projections years sc ps st pa oc).length),
      ((calculate_projections years sc ps st pa oc).get ⟨i, hi⟩).year = 2025 + i) ∧
    (∀ i (hi : i < (calculate_projections years sc ps st pa oc).length)
        (hi1 : i + 1 < (calculate_projections years sc ps st pa oc).length),
      ((calculate_projections years sc ps st pa oc).get ⟨i + 1, hi1⟩).year
        = ((calculate_projections years sc ps st pa oc).get ⟨i, hi⟩).year + 1) := by
  refine ⟨?_, ?_, ?_, ?_⟩
  · simp only [calculate_projections, List.length_map, List.length_range]
    exact Int.toNat_of_nonneg h
  · intro h0
    simp [calculate_projections, h0]
  · intro i hi
    rw [calculate_projections_get]
    rfl
  · intro i hi hi1
    rw [calculate_projections_get, calculate_projections_get]
    show (2025 : ℤ) + (↑(i + 1) : ℤ) = 2025 + ↑i + 1
    push_cast
    ring

/-- Witness for C5 at the sample input (horizon 2). -/
theorem C5_table_shape_witness :
    (((calculate_projections 2 ScenarioChoice.mostLikely sampleProducts sampleStaffing
        samplePartnerships sampleOther).length : ℤ) = 2) ∧
    ((2 : ℤ) = 0 → calculate_projections 2 ScenarioChoice.mostLikely sampleProducts
        sampleStaffing samplePartnerships sampleOther = []) ∧
    (∀ i (hi : i < (calculate_projections 2 ScenarioChoice.mostLikely sampleProducts
        sampleStaffing samplePartnerships sampleOther).length),
      ((calculate_projections 2 ScenarioChoice.mostLikely sampleProducts sampleStaffing
        samplePartnerships sampleOther).get ⟨i, hi⟩).year = 2025 + i) ∧
    (∀ i (hi : i < (calculate_projections 2 ScenarioChoice.mostLikely sampleProducts
        sampleStaffing samplePartnerships sampleOther).length)
        (hi1 : i + 1 < (calculate_projections 2 ScenarioChoice.mostLikely sampleProducts
          sampleStaffing samplePartnerships sampleOther).length),
      ((calculate_projections 2 ScenarioChoice.mostLikely sampleProducts sampleStaffing
        samplePartnerships sampleOther).get ⟨i + 1, hi1⟩).year
        = ((calculate_projections 2 ScenarioChoice.mostLikely sampleProducts sampleStaffing
          samplePartnerships sampleOther).get ⟨i, hi⟩).year + 1) :=
  C5_table_shape 2 (by decide) ScenarioChoice.mostLikely sampleProducts sampleStaffing
    samplePartnerships sampleOther

/-- The valid product list exhibiting the summary-column collision: the
first stream's dict key is `"Total Revenue"`, which the later total
write overwrites. -/
def totalProducts : List ProductStream := [⟨"Total", 100, 0⟩, ⟨"B", 50, 0⟩]

/-- The first row of the projection for `totalProducts`. -/
def totalRow : YearRecord :=
  yearRow ScenarioChoice.mostLikely totalProducts ⟨0, 0, 0⟩ ⟨0⟩ ⟨0, 0⟩ 0

/-- Claim C2, refuted as stated: with the valid input of two distinct
streams named "Total" (initial 100, growth 0) and "B" (initial 50,
growth 0), the `year_data["Total Revenue"]` summary write lands on
stream "Total"'s dict entry, so in the returned record that stream's
per-stream value is the total 150, not its formula value
`100 * (1 + 0 * multiplier / 100) ^ 0 = 100`. -/
theorem C2_counterexample :
    (totalProducts.map (fun p => p.name)).Nodup ∧
    totalRow ∈ calculate_projections 1 ScenarioChoice.mostLikely totalProducts
        ⟨0, 0, 0⟩ ⟨0⟩ ⟨0, 0⟩ ∧
    totalRow.revenues = [("Total Revenue", 150), ("B Revenue", 50)] ∧
    dictGet totalRow.revenues (revKey ⟨"Total", 100, 0⟩)
      ≠ (100 : ℚ)
          * (1 + 0 * scenarioMultiplier ScenarioChoice.mostLikely / 100) ^ (0 : ℕ) := by
  have hkeyT : ("Total" ++ " Revenue" : String) = "Total Revenue" := rfl
  have hkeyB : ("B" ++ " Revenue" : String) = "B Revenue" := rfl
  have hTB : ("Total Revenue" : String) ≠ "B Revenue" := by decide
  have hBT : ("B Revenue" : String) ≠ "Total Revenue" := by decide
  have hTBb : (("Total Revenue" : String) == "B Revenue") = false := by decide
  have hBTb : (("B Revenue" : String) == "Total Revenue") = false := by decide
  have hentries : revenueEntries ScenarioChoice.mostLikely totalProducts 0
      = [("Total Revenue", 100), ("B Revenue", 50)] := by
    unfold revenueEntries totalProducts
    rw [List.foldl_cons, List.foldl_cons, List.foldl_nil]
    norm_num [dictInsert, revKey, productRevenue, scenarioMultiplier, hkeyT, hkeyB,
      hTB, hTBb, hBTb]
  have hrev : totalRow.revenues = [("Total Revenue", 150), ("B Revenue", 50)] := by
    show (yearRow ScenarioChoice.mostLikely totalProducts ⟨0, 0, 0⟩ ⟨0⟩ ⟨0, 0⟩ 0).revenues
      = _
    rw [yearRow_revenues, hentries]
    norm_num [dictInsert, dictGet, revKey, totalProducts, hkeyT, hkeyB, hTB, hBT,
      hTBb, hBTb]
  have hget : dictGet totalRow.revenues (revKey ⟨"Total", 100, 0⟩) = 150 := by
    rw [hrev]
    norm_num [dictGet, revKey, hkeyT]
  refine ⟨by simp [totalProducts], List.mem_map_of_mem _ (by simp), hrev, ?_⟩
  rw [hget]
  norm_num [scenarioMultiplier]

/-- Claim C2 (amended): for every valid input whose stream names are
pairwise distinct and include no stream named "Total" (whose dict key
is clobbered by the summary-column write), the per-stream revenue
entries of record `y` are exactly, stream by stream,
`initial_revenue * (1 + growth_rate * scenario_multiplier / 100) ^ y`:
the nominal rate is scaled by the scenario multiplier before
compounding. -/
theorem C2_revenue_formula (years : ℤ) (sc : ScenarioChoice)
    (ps : List ProductStream) (st : StaffingModel) (pa : PartnershipModel)
    (oc : OtherCosts) (hnames : (ps.map (fun p => p.name)).Nodup)
    (hnototal : "Total" ∉ ps.map (fun p => p.name))
    (i : ℕ) (hi : i < (calculate_projections years sc ps st pa oc).length) :
    ((calculate_projections years sc ps st pa oc).get ⟨i, hi⟩).revenues
      = ps.map (fun p =>
          (p.name ++ " Revenue",
            p.initial_revenue * (1 + p.growth_rate * scenarioMultiplier sc / 100) ^ i)) := by
  rw [calculate_projections_get, yearRow_revenues_of_no_total sc ps st pa oc i hnototal]
  exact revenueEntries_eq_map sc ps i hnames

/-- Witness for C2 at the sample input, year index 1. -/
theorem C2_revenue_formula_witness :
    (sampleProducts.map (fun p => p.name)).Nodup ∧
    ("Total" ∉ sampleProducts.map (fun p => p.name)) ∧
    ((calculate_projections 2 ScenarioChoice.mostLikely sampleProducts sampleStaffing
        samplePartnerships sampleOther).get ⟨1, by simp [calculate_projections]⟩).revenues
      = sampleProducts.map (fun p =>
          (p.name ++ " Revenue",
            p.initial_revenue
              * (1 + p.growth_rate * scenarioMultiplier ScenarioChoice.mostLikely / 100) ^ 1) ) :=
  ⟨by simp [sampleProducts], by simp [sampleProducts],
    C2_revenue_formula 2 ScenarioChoice.mostLikely sampleProducts
      sampleStaffing samplePartnerships sampleOther (by simp [sampleProducts])
      (by simp [sampleProducts]) 1 (by simp [calculate_projections])⟩

/-- Claim C4: staffing costs and other costs follow their compounding
formulas and do not depend on the selected scenario. -/
theorem C4_cost_formulas (years : ℤ) (sc : ScenarioChoice)
    (ps : List ProductStream) (st : StaffingModel) (pa : PartnershipModel)
    (oc : OtherCosts) (i : ℕ)
    (hi : i < (calculate_projections years sc ps st pa oc).length) :
    (((calculate_projections years sc ps st pa oc).get ⟨i, hi⟩).staffing_costs
        = st.num_employees * st.avg_salary * (1 + st.cost_growth / 100) ^ i) ∧
    (((calculate_projections years sc ps st pa oc).get ⟨i, hi⟩).other_costs
        = oc.initial * (1 + oc.growth_rate / 100) ^ i) ∧
    ∀ sc2 : ScenarioChoice,
      ((calculate_projections years sc2 ps st pa oc).map (fun r => r.staffing_costs)
          = (calculate_projections years sc ps st pa oc).map (fun r => r.staffing_costs)) ∧
      ((calculate_projections years sc2 ps st pa oc).map (fun r => r.other_costs)
          = (calculate_projections years sc ps st pa oc).map (fun r => r.other_costs)) := by
  refine ⟨?_, ?_, ?_⟩
  · rw [calculate_projections_get]
    exact yearRow_staffing_costs sc ps st pa oc i
  · rw [calculate_projections_get]
    exact yearRow_other_costs sc ps st pa oc i
  · intro sc2
    constructor
    · simp only [calculate_projections, List.map_map]
      apply List.map_congr_left
      intro y _
      simp only [Function.comp_apply]
      rw [yearRow_staffing_costs, yearRow_staffing_costs]
    · simp only [calculate_projections, List.map_map]
      apply List.map_congr_left
      intro y _
      simp only [Function.comp_apply]
      rw [yearRow_other_costs, yearRow_other_costs]

/-- Witness for C4 at the sample input, year index 1. -/
theorem C4_cost_formulas_witness :
    (((calculate_projections 2 ScenarioChoice.mostLikely sampleProducts sampleStaffing
        samplePartnerships sampleOther).get
          ⟨1, by simp [calculate_projections]⟩).staffing_costs
        = sampleStaffing.num_employees * sampleStaffing.avg_salary
            * (1 + sampleStaffing.cost_growth / 100) ^ 1) ∧
    (((calculate_projections 2 ScenarioChoice.mostLikely sampleProducts sampleStaffing
        samplePartnerships sampleOther).get
          ⟨1, by simp [calculate_projections]⟩).other_costs
        = sampleOther.initial * (1 + sampleOther.growth_rate / 100) ^ 1) ∧
    ∀ sc2 : ScenarioChoice,
      ((calculate_projections 2 sc2 sampleProducts sampleStaffing samplePartnerships
          sampleOther).map (fun r => r.staffing_costs)
        = (calculate_projections 2 ScenarioChoice.mostLikely sampleProducts sampleStaffing
            samplePartnerships sampleOther).map (fun r => r.staffing_costs)) ∧
      ((calculate_projections 2 sc2 sampleProducts sampleStaffing samplePartnerships
          sampleOther).map (fun r => r.other_costs)
        = (calculate_projections 2 ScenarioChoice.mostLikely sampleProducts sampleStaffing
            samplePartnerships sampleOther).map (fun r => r.other_costs)) :=
  C4_cost_formulas 2 ScenarioChoice.mostLikely sampleProducts sampleStaffing
    samplePartnerships sampleOther 1 (by simp [calculate_projections])

/-- Claim C7: in every record of every returned table, `margin` equals
`total_revenue - total_costs` (and may be negative), and `total_subsidy`
equals `max 0 (margin * 1/2)` with the subsidy fraction fixed at `1/2`,
hence `total_subsidy ≥ 0` always. -/
theorem C7_margin_and_subsidy (years : ℤ) (sc : ScenarioChoice)
    (ps : List ProductStream) (st : StaffingModel) (pa : PartnershipModel)
    (oc : OtherCosts) :
    ∀ r ∈ calculate_projections years sc ps st pa oc,
      r.margin = r.total_revenue - r.total_costs ∧
      r.total_subsidy = max 0 (r.margin * (1 / 2)) ∧
      0 ≤ r.total_subsidy := by
  intro r hr
  rcases mem_calculate_projections.1 hr with ⟨y, _, rfl⟩
  exact ⟨rfl, rfl, le_max_left 0 _⟩

/-- Witness for C7 at the sample input, year 0. -/
theorem C7_margin_and_subsidy_witness :
    sampleRow.margin = sampleRow.total_revenue - sampleRow.total_costs ∧
    sampleRow.total_subsidy = max 0 (sampleRow.margin * (1 / 2)) ∧
    0 ≤ sampleRow.total_subsidy :=
  C7_margin_and_subsidy 2 ScenarioChoice.mostLikely sampleProducts sampleStaffing
    samplePartnerships sampleOther sampleRow sampleRow_mem

/-- Claim C8: in every record, `avg_subsidy_per_partner` equals
`total_subsidy / num_partners` when there are partners and `0` when
there are none; the guarded division is total and never raises. -/
theorem C8_partner_division (years : ℤ) (sc : ScenarioChoice)
    (ps : List ProductStream) (st : StaffingModel) (pa : PartnershipModel)
    (oc : OtherCosts) :
    ∀ r ∈ calculate_projections years sc ps st pa oc,
      (r.avg_subsidy_per_partner
          = if 0 < pa.num_partners then r.total_subsidy / (pa.num_partners : ℚ) else 0) ∧
      (pa.num_partners = 0 → r.avg_subsidy_per_partner = 0) := by
  intro r hr
  rcases mem_calculate_projections.1 hr with ⟨y, _, rfl⟩
  refine ⟨rfl, ?_⟩
  intro h0
  simp [yearRow, h0]

/-- Witness for C8 at the sample input, year 0. -/
theorem C8_partner_division_witness :
    (sampleRow.avg_subsidy_per_partner
        = if 0 < samplePartnerships.num_partners
          then sampleRow.total_subsidy / (samplePartnerships.num_partners : ℚ) else 0) ∧
    (samplePartnerships.num_partners = 0 → sampleRow.avg_subsidy_per_partner = 0) :=
  C8_partner_division 2 ScenarioChoice.mostLikely sampleProducts sampleStaffing
    samplePartnerships sampleOther sampleRow sampleRow_mem

/-- Claim C1, refuted: `calculate_projections` performs no validation at
all and has no error path; on an empty product list with horizon 1 it
returns a complete one-record table whose total revenue is 0, instead of
failing with `InvalidParameters`. -/
theorem C1_counterexample :
    (calculate_projections 1 ScenarioChoice.mostLikely [] ⟨1, 50000, 3⟩ ⟨5⟩
        ⟨100000, 5⟩).map (fun r => r.total_revenue) = [0] := by
  show ((List.range (1 : ℤ).toNat).map
      (yearRow ScenarioChoice.mostLikely [] ⟨1, 50000, 3⟩ ⟨5⟩ ⟨100000, 5⟩)).map
        (fun r => r.total_revenue) = [0]
  rw [show (1 : ℤ).toNat = 1 from rfl, List.range_succ]
  simp [yearRow_total_revenue]

/-- Claim C1 (amended): the engine has no validation and cannot fail:
for every horizon (negative included), scenario and parameter set —
whatever the product list — it returns a complete table of
`max(horizon, 0)` records, and for an empty product list every record's
total revenue is 0. -/
theorem C1_no_validation (years : ℤ) (sc : ScenarioChoice) (ps : List ProductStream)
    (st : StaffingModel) (pa : PartnershipModel) (oc : OtherCosts) :
    ((calculate_projections years sc ps st pa oc).length = years.toNat) ∧
    (ps = [] →
      (calculate_projections years sc ps st pa oc).map (fun r => r.total_revenue)
        = List.replicate years.toNat 0) := by
  constructor
  · simp [calculate_projections]
  · rintro rfl
    rw [List.eq_replicate_iff]
    constructor
    · simp [calculate_projections]
    · intro b hb
      rcases List.mem_map.1 hb with ⟨r, hr, rfl⟩
      rcases mem_calculate_projections.1 hr with ⟨y, _, rfl⟩
      rw [yearRow_total_revenue]
      simp

/-- Witness for C1 (amended) at a negative horizon and the empty
product list: the call returns the empty table, not an error. -/
theorem C1_no_validation_witness :
    ((calculate_projections (-3) ScenarioChoice.mostLikely [] sampleStaffing
        samplePartnerships sampleOther).length = (-3 : ℤ).toNat) ∧
    ((calculate_projections (-3) ScenarioChoice.mostLikely [] sampleStaffing
        samplePartnerships sampleOther).map (fun r => r.total_revenue)
      = List.replicate (-3 : ℤ).toNat 0) :=
  ⟨(C1_no_validation (-3) ScenarioChoice.mostLikely [] sampleStaffing samplePartnerships
      sampleOther).1,
    (C1_no_validation (-3) ScenarioChoice.mostLikely [] sampleStaffing samplePartnerships
      sampleOther).2 rfl⟩

/-- The duplicate-name product list that breaks the additivity claim:
both entries write to (and are then read back from) the same dictionary
key `"A Revenue"`. -/
def dupProducts : List ProductStream := [⟨"A", 100, 0⟩, ⟨"A", 200, 0⟩]

/-- The first row of the projection for `dupProducts`. -/
def dupRow : YearRecord :=
  yearRow ScenarioChoice.mostLikely dupProducts ⟨0, 0, 0⟩ ⟨0⟩ ⟨0, 0⟩ 0

/-- Claim C6, refuted: with a duplicated stream name the second write
overwrites the dictionary entry, and the total (summed by re-reading the
dictionary once per product) counts the last value twice: the record has
`total_revenue = 400` but its per-stream fields sum to 200. -/
theorem C6_counterexample :
    dupRow ∈ calculate_projections 1 ScenarioChoice.mostLikely dupProducts
        ⟨0, 0, 0⟩ ⟨0⟩ ⟨0, 0⟩ ∧
    dupRow.total_revenue = 400 ∧
    (dupRow.revenues.map Prod.snd).sum = 200 ∧
    dupRow.total_revenue ≠ (dupRow.revenues.map Prod.snd).sum := by
  have hkey : ("A" ++ " Revenue" : String) = "A Revenue" := rfl
  have hentries : revenueEntries ScenarioChoice.mostLikely dupProducts 0
      = [("A Revenue", 200)] := by
    unfold revenueEntries dupProducts
    rw [List.foldl_cons, List.foldl_cons, List.foldl_nil]
    norm_num [dictInsert, revKey, productRevenue, scenarioMultiplier, hkey]
  have h2 : dupRow.total_revenue = 400 := by
    show (yearRow ScenarioChoice.mostLikely dupProducts ⟨0, 0, 0⟩ ⟨0⟩ ⟨0, 0⟩ 0).total_revenue
      = 400
    rw [yearRow_total_revenue, hentries]
    norm_num [dupProducts, dictGet, revKey, hkey]
  have h3 : (dupRow.revenues.map Prod.snd).sum = 200 := by
    show ((yearRow ScenarioChoice.mostLikely dupProducts ⟨0, 0, 0⟩ ⟨0⟩ ⟨0, 0⟩
        0).revenues.map Prod.snd).sum = 200
    rw [yearRow_revenues_of_no_total ScenarioChoice.mostLikely dupProducts ⟨0, 0, 0⟩ ⟨0⟩
        ⟨0, 0⟩ 0 (by simp [dupProducts]), hentries]
    norm_num
  refine ⟨List.mem_map_of_mem _ (by simp), h2, h3, ?_⟩
  rw [h2, h3]
  norm_num

/-- Claim C6 (amended): `total_costs` always equals
`staffing_costs + other_costs`; and provided the product stream names
are pairwise distinct and no stream is named "Total" (otherwise the
total write clobbers that stream's entry), `total_revenue` equals the
sum of the per-stream revenue fields of the record. -/
theorem C6_additivity (years : ℤ) (sc : ScenarioChoice) (ps : List ProductStream)
    (st : StaffingModel) (pa : PartnershipModel) (oc : OtherCosts) :
    (∀ r ∈ calculate_projections years sc ps st pa oc,
      r.total_costs = r.staffing_costs + r.other_costs) ∧
    ((ps.map (fun p => p.name)).Nodup → "Total" ∉ ps.map (fun p => p.name) →
      ∀ r ∈ calculate_projections years sc ps st pa oc,
        r.total_revenue = (r.revenues.map Prod.snd).sum) := by
  constructor
  · intro r hr
    rcases mem_calculate_projections.1 hr with ⟨y, _, rfl⟩
    exact yearRow_total_costs sc ps st pa oc y
  · intro hnames hnototal r hr
    rcases mem_calculate_projections.1 hr with ⟨y, _, rfl⟩
    rw [yearRow_total_revenue, yearRow_revenues_of_no_total sc ps st pa oc y hnototal,
      revenueEntries_eq_map sc ps y hnames, List.map_map]
    congr 1
    apply List.map_congr_left
    intro p hp
    simpa using dictGet_map_eq (fun q => productRevenue sc q y) ps (keys_nodup hnames) p hp

/-- Witness for C6 at the sample input. -/
theorem C6_additivity_witness :
    (∀ r ∈ sampleTable, r.total_costs = r.staffing_costs + r.other_costs) ∧
    (∀ r ∈ sampleTable, r.total_revenue = (r.revenues.map Prod.snd).sum) :=
  ⟨(C6_additivity 2 ScenarioChoice.mostLikely sampleProducts sampleStaffing
      samplePartnerships sampleOther).1,
    (C6_additivity 2 ScenarioChoice.mostLikely sampleProducts sampleStaffing
      samplePartnerships sampleOther).2 (by simp [sampleProducts])
      (by simp [sampleProducts])⟩

/-- Claim C9, refuted as stated: a stream with zero initial revenue and
positive growth rate (20%) earns 0 in every scenario, so the Optimistic
year-1 revenue does not strictly exceed the Most Likely one. -/
theorem C9_counterexample :
    productRevenue ScenarioChoice.optimistic ⟨"A", 0, 20⟩ 1 = 0 ∧
    productRevenue ScenarioChoice.mostLikely ⟨"A", 0, 20⟩ 1 = 0 ∧
    ¬ productRevenue ScenarioChoice.mostLikely ⟨"A", 0, 20⟩ 1
        < productRevenue ScenarioChoice.optimistic ⟨"A", 0, 20⟩ 1 := by
  refine ⟨?_, ?_, ?_⟩ <;> norm_num [productRevenue, scenarioMultiplier]

/-- Claim C9 (amended): for a stream with positive initial revenue and
positive growth rate and any year index N > 0, the year-N revenue is
strictly larger under Optimistic than under Most Likely, and strictly
larger under Most Likely than under Pessimistic. -/
theorem C9_scenario_monotonic (p : ProductStream) (hr : 0 < p.initial_revenue)
    (hg : 0 < p.growth_rate) (N : ℕ) (hN : 0 < N) :
    productRevenue ScenarioChoice.pessimistic p N
        < productRevenue ScenarioChoice.mostLikely p N ∧
    productRevenue ScenarioChoice.mostLikely p N
        < productRevenue ScenarioChoice.optimistic p N := by
  unfold productRevenue scenarioMultiplier
  constructor
  · apply mul_lt_mul_of_pos_left _ hr
    apply pow_lt_pow_left₀ _ _ hN.ne'
    · linarith
    · linarith
  · apply mul_lt_mul_of_pos_left _ hr
    apply pow_lt_pow_left₀ _ _ hN.ne'
    · linarith
    · linarith

/-- Witness for C9 at the sample product and year 1. -/
theorem C9_scenario_monotonic_witness :
    productRevenue ScenarioChoice.pessimistic ⟨"A", 100000, 20⟩ 1
        < productRevenue ScenarioChoice.mostLikely ⟨"A", 100000, 20⟩ 1 ∧
    productRevenue ScenarioChoice.mostLikely ⟨"A", 100000, 20⟩ 1
        < productRevenue ScenarioChoice.optimistic ⟨"A", 100000, 20⟩ 1 :=
  C9_scenario_monotonic ⟨"A", 100000, 20⟩ (by norm_num) (by norm_num) 1 (by norm_num)

/-! ### Scenario rescaling (claim C10) -/

lemma productRevenue_scale (sc : ScenarioChoice) (p : ProductStream) (y : ℕ) :
    productRevenue ScenarioChoice.mostLikely
        { p with growth_rate := p.growth_rate * scenarioMultiplier sc } y
      = productRevenue sc p y := by
  simp [productRevenue, scenarioMultiplier]

lemma foldl_congr_fun {α β : Type} {f g : α → β → α} (h : ∀ a b, f a b = g a b)
    (l : List β) : ∀ init : α, l.foldl f init = l.foldl g init := by
  induction l with
  | nil => intro init; rfl
  | cons b l ih => intro init; rw [List.foldl_cons, List.foldl_cons, h, ih]

lemma revenueEntries_scale (sc : ScenarioChoice) (ps : List ProductStream) (y : ℕ) :
    revenueEntries ScenarioChoice.mostLikely
        (ps.map fun p => { p with growth_rate := p.growth_rate * scenarioMultiplier sc }) y
      = revenueEntries sc ps y := by
  unfold revenueEntries
  rw [List.foldl_map]
  exact foldl_congr_fun (fun d p => by rw [productRevenue_scale]; rfl) ps []

lemma yearRow_scale (sc : ScenarioChoice) (ps : List ProductStream) (st : StaffingModel)
    (pa : PartnershipModel) (oc : OtherCosts) (y : ℕ) :
    yearRow ScenarioChoice.mostLikely
        (ps.map fun p => { p with growth_rate := p.growth_rate * scenarioMultiplier sc })
        st pa oc y
      = yearRow sc ps st pa oc y := by
  simp only [yearRow, revenueEntries_scale, List.map_map, Function.comp]
  rfl

/-- Claim C10: the scenario acts only by rescaling growth rates — the
table for scenario `sc` coincides with the Most Likely table computed on
products whose growth rates are premultiplied by `sc`'s multiplier. -/
theorem C10_scenario_rescaling (years : ℤ) (sc : ScenarioChoice)
    (ps : List ProductStream) (st : StaffingModel) (pa : PartnershipModel)
    (oc : OtherCosts) :
    calculate_projections years sc ps st pa oc
      = calculate_projections years ScenarioChoice.mostLikely
          (ps.map fun p => { p with growth_rate := p.growth_rate * scenarioMultiplier sc })
          st pa oc := by
  unfold calculate_projections
  apply List.map_congr_left
  intro y _
  exact (yearRow_scale sc ps st pa oc y).symm
